import Mathlib

/-!
# Verification of the simulated-network core (iotaledger/iota-sim)

Shallow embedding of the tag-matched mailbox delivery protocol:

* `madsim` namespace — from `madsim/src/net/network.rs`: the simulated
  `Network` (endpoint registry, clog set, packet-loss admission, stats)
  and its per-address `Endpoint` mailbox (`registered` waiters, `msgs`
  pending queue).
* `tcp` namespace — from `madsim/src/std/net/tcp.rs`: the `Mailbox` of
  the TCP-backed transport, whose `deliver` retries subsequent waiters
  when a one-shot receiver has been dropped.
* `msim` namespace — from `msim/src/sim/net/mod.rs`: the `Endpoint`
  facade (`udp_tag`, `peer_addr`, connected `send`/`recv`,
  `recv_from` buffer copy).

One-shot channels are modelled by giving every registered waiter an
identifier `wid`; an oracle `alive : Nat → Bool` says whether the
receiving half of that one-shot is still alive at delivery time
(`Sender::send` succeeds iff it is).  Randomness (the packet-loss
Bernoulli draw) is passed in as an explicit boolean.  Rust `u64` tags
and byte payloads are modelled as `Nat` / `List Nat`; none of the
verified operations performs arithmetic that could overflow a `u64`.
-/

/-- A socket address: IP and port (the embedding only needs equality
tests on addresses, plus the port for `udp_tag`). -/
structure SocketAddr where
  ip : Nat
  port : Nat
deriving DecidableEq, Repr

/-- Rust `Vec::swap_remove(i)`: replace element `i` with the last element and
pop the last element.  (For `i = len - 1` this just pops; for `l = []`
Rust would panic, we return `[]` — all uses guard `i < l.length`.) -/
def swapRemove {α : Type} (l : List α) (i : Nat) : List α :=
  match l.getLast? with
  | none => []
  | some last => (l.set i last).dropLast

namespace madsim

/-- Struct `Message` from `madsim/src/net/network.rs`: tag, payload bytes,
sender address. -/
structure Message where
  tag : Nat
  data : List Nat
  «from» : SocketAddr
deriving DecidableEq, Repr

/-- A registered receiver: its requested tag and the identity of its
one-shot channel. -/
structure Waiter where
  tag : Nat
  wid : Nat
deriving DecidableEq, Repr

/-- The per-address mailbox `Endpoint { registered, msgs }`. -/
structure Endpoint where
  registered : List Waiter
  msgs : List Message
deriving DecidableEq, Repr

/-- What became of a message handed to `Endpoint::send`. -/
inductive DeliverOutcome where
  /-- the one-shot `send` succeeded: waiter `wid` received the message -/
  | handed (wid : Nat)
  /-- the matched waiter's receiver was dropped; the message is discarded -/
  | lost
  /-- no waiter matched; the message was pushed onto `msgs` -/
  | queued
deriving DecidableEq, Repr

/-- Function `Endpoint::send` (the deliver step run when a timer fires): find the
first registered waiter whose tag equals `msg.tag`; if found,
`swap_remove` it and `let _ = sender.send(msg)` (the result is ignored,
so the message is lost if the receiver was dropped); otherwise push the
message onto `msgs`. -/
def Endpoint.send (alive : Nat → Bool) (ep : Endpoint) (msg : Message) :
    Endpoint × DeliverOutcome :=
  let idx := ep.registered.findIdx fun w => w.tag == msg.tag
  if h : idx < ep.registered.length then
    let w := ep.registered[idx]
    let reg' := swapRemove ep.registered idx
    if alive w.wid then ({ ep with registered := reg' }, .handed w.wid)
    else ({ ep with registered := reg' }, .lost)
  else
    ({ ep with msgs := ep.msgs ++ [msg] }, .queued)

/-- Function `Endpoint::recv`: find the first pending message whose tag equals
`tag`; if found, `swap_remove` it and complete the fresh one-shot with
it (modelled as returning `some msg`); otherwise register `(tag, tx)`
(the fresh one-shot is given identity `wid`) and return `none`. -/
def Endpoint.recv (ep : Endpoint) (tag : Nat) (wid : Nat) :
    Endpoint × Option Message :=
  let idx := ep.msgs.findIdx fun m => tag == m.tag
  if h : idx < ep.msgs.length then
    ({ ep with msgs := swapRemove ep.msgs idx }, some (ep.msgs[idx]))
  else
    ({ ep with registered := ep.registered ++ [⟨tag, wid⟩] }, none)

/-- Struct `Stat { msg_count }`. -/
structure Stat where
  msg_count : Nat
deriving DecidableEq, Repr

/-- The simulated `Network`: endpoint map, clogged-address set, stats.
The random handle and config are factored out: the packet-loss draw is
an explicit argument of `send`, and latency only affects when (not
whether or what) the scheduled delivery runs. -/
structure Network where
  endpoints : SocketAddr → Option Endpoint
  clogged : SocketAddr → Bool
  stat : Stat

/-- Function `Network::insert`: if the address already has an endpoint, return;
otherwise install a fresh default endpoint. -/
def Network.insert (net : Network) (target : SocketAddr) : Network :=
  if (net.endpoints target).isSome then net
  else
    { net with
      endpoints := fun a => if a = target then some ⟨[], []⟩ else net.endpoints a }

/-- Function `Network::remove`: remove the endpoint and also remove the address
from the clogged set.  Total: no assertion. -/
def Network.remove (net : Network) (target : SocketAddr) : Network :=
  { net with
    endpoints := fun a => if a = target then none else net.endpoints a,
    clogged := fun a => if a = target then false else net.clogged a }

/-- Function `Network::clog`: asserts the address is registered (`none` models
the panic), then inserts it into the clogged set. -/
def Network.clog (net : Network) (target : SocketAddr) : Option Network :=
  if (net.endpoints target).isSome then
    some { net with clogged := fun a => if a = target then true else net.clogged a }
  else none

/-- Function `Network::unclog`: asserts the address is registered, then removes
it from the clogged set. -/
def Network.unclog (net : Network) (target : SocketAddr) : Option Network :=
  if (net.endpoints target).isSome then
    some { net with clogged := fun a => if a = target then false else net.clogged a }
  else none

/-- Result of `Network::send`. -/
inductive SendOutcome where
  /-- the `assert!(self.endpoints.contains_key(&src))` failed -/
  | panicked
  /-- fault admission failed: dropped silently, nothing scheduled -/
  | dropped
  /-- a timer was scheduled that will run `endpoint(dst).send msg` -/
  | scheduled (msg : Message) (dst : SocketAddr)
deriving DecidableEq, Repr

/-- Function `Network::send`: assert the source is bound; drop silently if the
destination is unbound, either address is clogged, or the packet-loss
draw (`lossDraw`) fires; otherwise schedule delivery of
`{tag, data, from: src}` to `dst` after a random latency and increment
`stat.msg_count`. -/
def Network.send (net : Network) (lossDraw : Bool) (src dst : SocketAddr)
    (tag : Nat) (data : List Nat) : Network × SendOutcome :=
  if (net.endpoints src).isNone then (net, .panicked)
  else if (net.endpoints dst).isNone || net.clogged src || net.clogged dst
      || lossDraw then
    (net, .dropped)
  else
    ({ net with stat := ⟨net.stat.msg_count + 1⟩ },
     .scheduled ⟨tag, data, src⟩ dst)

/-- Arguments of one `Network::send` call, with its packet-loss draw. -/
structure SendCall where
  loss : Bool
  src : SocketAddr
  dst : SocketAddr
  tag : Nat
  data : List Nat

/-- Fault admission of one send: destination bound, neither address
clogged, and the packet-loss draw did not fire. -/
def Network.admits (net : Network) (c : SendCall) : Bool :=
  (net.endpoints c.dst).isSome && !net.clogged c.src && !net.clogged c.dst
    && !c.loss

/-- Run a sequence of `Network::send` calls. -/
def Network.sendMany (net : Network) : List SendCall → Network
  | [] => net
  | c :: cs => ((net.send c.loss c.src c.dst c.tag c.data).1).sendMany cs

/-- Function `Network::recv`: indexes `self.endpoints[&dst]` directly — `none`
models the panic when `dst` is unbound; otherwise runs the endpoint's
`recv`. -/
def Network.recv (net : Network) (dst : SocketAddr) (tag : Nat) (wid : Nat) :
    Option (Network × Option Message) :=
  match net.endpoints dst with
  | none => none
  | some ep =>
    let r := ep.recv tag wid
    some ({ net with
            endpoints := fun a => if a = dst then some r.1 else net.endpoints a },
          r.2)

end madsim

namespace tcp

/-- Struct `RecvMsg` from `madsim/src/std/net/tcp.rs`. -/
structure RecvMsg where
  tag : Nat
  data : List Nat
  «from» : SocketAddr
deriving DecidableEq, Repr

/-- A registered receiver of the TCP-transport mailbox. -/
structure Waiter where
  tag : Nat
  wid : Nat
deriving DecidableEq, Repr

/-- Struct `Mailbox { registered, msgs }` of the TCP-backed transport. -/
structure Mailbox where
  registered : List Waiter
  msgs : List RecvMsg
deriving DecidableEq, Repr

/-- Loop body of `Mailbox::deliver`: starting at index `i`, scan
`registered`; on a tag match, `swap_remove` the entry and try to send —
on success return the accepting waiter's id, on failure (receiver
dropped) retry at the same index; on a mismatch advance `i`.  Returns
the final `registered` list and `some wid` iff some waiter accepted. -/
def deliverLoop (alive : Nat → Bool) (tag : Nat) (reg : List Waiter) (i : Nat) :
    List Waiter × Option Nat :=
  if h : i < reg.length then
    if reg[i].tag = tag then
      if alive reg[i].wid then (swapRemove reg i, some reg[i].wid)
      else deliverLoop alive tag (swapRemove reg i) i
    else deliverLoop alive tag reg (i + 1)
  else (reg, none)
termination_by reg.length - i
decreasing_by
  all_goals
    first
    | omega
    | (have hlen : (swapRemove reg i).length = reg.length - 1 := by
         rcases hl : reg.getLast? with _ | last
         · exact absurd (List.getLast?_eq_none_iff.mp hl)
             (List.ne_nil_of_length_pos (by omega))
         · simp [swapRemove, hl]
       omega)

/-- Function `Mailbox::deliver`: run the waiter-scan loop from index 0;
if no waiter accepted the message, append it to `msgs`. -/
def Mailbox.deliver (alive : Nat → Bool) (mb : Mailbox) (msg : RecvMsg) :
    Mailbox × Option Nat :=
  match deliverLoop alive msg.tag mb.registered 0 with
  | (reg', some wid) => ({ mb with registered := reg' }, some wid)
  | (reg', none) => ({ registered := reg', msgs := mb.msgs ++ [msg] }, none)

/-- Function `Mailbox::recv`: find the first pending message whose tag
equals `tag`; if found, `swap_remove` it and complete the fresh one-shot
with it; otherwise register `(tag, tx)` (identity `wid`). -/
def Mailbox.recv (mb : Mailbox) (tag : Nat) (wid : Nat) :
    Mailbox × Option RecvMsg :=
  let idx := mb.msgs.findIdx fun m => tag == m.tag
  if h : idx < mb.msgs.length then
    ({ mb with msgs := swapRemove mb.msgs idx }, some (mb.msgs[idx]))
  else
    ({ mb with registered := mb.registered ++ [⟨tag, wid⟩] }, none)

end tcp

namespace msim

/-- Error kinds of `std::io::ErrorKind` used by the `Endpoint` facade in
`msim/src/sim/net/mod.rs`. -/
inductive IoError where
  | NotConnected
  | BrokenPipe
  | WouldBlock
deriving DecidableEq, Repr

/-- Struct `Endpoint` of the msim facade: its bound local address and
the optional stored peer (set only by `Endpoint::connect`).  The `net`
and `node` handles play no role in the operations verified here. -/
structure Endpoint where
  addr : SocketAddr
  peer : Option SocketAddr
deriving DecidableEq, Repr

/-- Function `Endpoint::peer_addr`: the stored peer, or `NotConnected`. -/
def Endpoint.peer_addr (ep : Endpoint) : Except IoError SocketAddr :=
  match ep.peer with
  | some p => .ok p
  | none => .error .NotConnected

/-- Function `Endpoint::udp_tag`: `NotConnected` if the local port is 0,
otherwise the port as a `u64` tag. -/
def Endpoint.udp_tag (ep : Endpoint) : Except IoError Nat :=
  if ep.addr.port = 0 then .error .NotConnected
  else .ok ep.addr.port

/-- Function `Endpoint::send`: `let peer = self.peer_addr()?` then
delegate to `send_to(peer, tag, buf)`, which always returns `Ok(())`;
the `ok` value records the delegated call's arguments. -/
def Endpoint.send (ep : Endpoint) (tag : Nat) (buf : List Nat) :
    Except IoError (SocketAddr × Nat × List Nat) :=
  match ep.peer_addr with
  | .error e => .error e
  | .ok peer => .ok (peer, tag, buf)

/-- Function `Endpoint::recv`: `let peer = self.peer_addr()?`, then
`recv_from`, then `assert_eq!(from, peer)`.  `recvResult` is the
awaited `(len, from)` outcome of `recv_from`; the result is `none` when
the assertion panics. -/
def Endpoint.recv (ep : Endpoint)
    (recvResult : Except IoError (Nat × SocketAddr)) :
    Option (Except IoError Nat) :=
  match ep.peer_addr with
  | .error e => some (.error e)
  | .ok peer =>
    match recvResult with
    | .error e => some (.error e)
    | .ok (len, src) => if src = peer then some (.ok len) else none

/-- Copy step of `Endpoint::recv_from` (identical in
`msim/src/sim/net/mod.rs` and `madsim/src/std/net/tcp.rs`): given the
receive buffer and the raw message `(data, from)` returned by
`recv_from_raw`, compute `len = buf.len().min(data.len())`, overwrite
`buf[..len]` with `data[..len]`, and return `((len, from), buf)`. -/
def recv_from (buf : List Nat) (data : List Nat) (src : SocketAddr) :
    (Nat × SocketAddr) × List Nat :=
  let len := min buf.length data.length
  ((len, src), data.take len ++ buf.drop len)

end msim

namespace tcp
/-- The mailbox invariant of the spec: for no tag are a pending message
and a registered waiter both parked. -/
def Mailbox.inv (mb : Mailbox) : Prop :=
  ∀ m ∈ mb.msgs, ∀ w ∈ mb.registered, m.tag ≠ w.tag

instance (mb : Mailbox) : Decidable mb.inv := by
  unfold Mailbox.inv
  infer_instance

end tcp

namespace madsim

/-- The mailbox invariant of the spec: for no tag are a pending message
and a registered waiter both parked. -/
def Endpoint.inv (ep : Endpoint) : Prop :=
  ∀ m ∈ ep.msgs, ∀ w ∈ ep.registered, m.tag ≠ w.tag

instance (ep : Endpoint) : Decidable ep.inv := by
  unfold Endpoint.inv
  infer_instance

end madsim

theorem swapRemove_length {α : Type} (l : List α) (i : Nat) (h : l ≠ []) :
    (swapRemove l i).length = l.length - 1 := by
  rcases hl : l.getLast? with _ | last
  · exact absurd (List.getLast?_eq_none_iff.mp hl) h
  · simp [swapRemove, hl, List.length_dropLast, List.length_set]

theorem swapRemove_subset {α : Type} {l : List α} {i : Nat} {x : α}
    (hx : x ∈ swapRemove l i) : x ∈ l := by
  rcases hl : l.getLast? with _ | last
  · simp [swapRemove, hl] at hx
  · simp only [swapRemove, hl] at hx
    have hx' : x ∈ l.set i last := (List.dropLast_sublist _).subset hx
    rcases List.mem_or_eq_of_mem_set hx' with h | h
    · exact h
    · exact h ▸ List.mem_of_getLast?_eq_some hl

theorem swapRemove_getElem_lt {α : Type} (l : List α) (i j : Nat)
    (hij : j < i) (hi : i < l.length) (hj : j < (swapRemove l i).length) :
    (swapRemove l i)[j] = l.get ⟨j, by omega⟩ := by
  rcases hl : l.getLast? with _ | last
  · have : l = [] := List.getLast?_eq_none_iff.mp hl
    simp [this] at hi
  · have hj' : j < ((l.set i last).dropLast).length := by
      simpa [swapRemove, hl] using hj
    simp only [swapRemove, hl]
    rw [List.getElem_dropLast _ j hj']
    exact List.getElem_set_ne (by omega) _

namespace tcp

theorem deliverLoop_subset (alive : Nat → Bool) (tag : Nat) (reg : List Waiter)
    (i : Nat) : ∀ w ∈ (deliverLoop alive tag reg i).1, w ∈ reg := by
  intro w hw
  rw [deliverLoop] at hw
  split at hw
  · split at hw
    · split at hw
      · exact swapRemove_subset hw
      · exact swapRemove_subset
          (deliverLoop_subset alive tag (swapRemove reg i) i w hw)
    · exact deliverLoop_subset alive tag reg (i + 1) w hw
  · exact hw
termination_by reg.length - i
decreasing_by
  all_goals
    first
    | omega
    | (have hne : reg ≠ [] := List.ne_nil_of_length_pos (by omega)
       rw [swapRemove_length reg i hne]
       omega)

theorem deliverLoop_none_tags (alive : Nat → Bool) (tag : Nat) (reg : List Waiter)
    (i : Nat) (res : List Waiter × Option Nat)
    (hpre : ∀ j, j < i → ∀ (hj : j < reg.length), reg[j].tag ≠ tag)
    (hres : deliverLoop alive tag reg i = res) (hnone : res.2 = none) :
    ∀ w ∈ res.1, w.tag ≠ tag := by
  rw [deliverLoop] at hres
  split at hres
  · rename_i h
    split at hres
    · rename_i hm
      split at hres
      · rw [← hres] at hnone
        simp at hnone
      · refine deliverLoop_none_tags alive tag (swapRemove reg i) i res ?_ hres hnone
        intro j hj hjl
        rw [swapRemove_getElem_lt reg i j hj h hjl]
        exact hpre j hj (by omega)
    · rename_i hm
      refine deliverLoop_none_tags alive tag reg (i + 1) res ?_ hres hnone
      intro j hj hjl
      rcases Nat.lt_or_ge j i with hji | hji
      · exact hpre j hji hjl
      · have : j = i := by omega
        subst this
        exact hm
  · rename_i h
    rw [← hres]
    intro w hw
    have hw' : w ∈ reg := hw
    rcases List.mem_iff_getElem.mp hw' with ⟨j, hj, hjw⟩
    rw [← hjw]
    exact hpre j (by omega) hj
termination_by reg.length - i
decreasing_by
  all_goals
    first
    | omega
    | (have hne : reg ≠ [] := List.ne_nil_of_length_pos (by omega)
       rw [swapRemove_length reg i hne]
       omega)


end tcp

namespace madsim

theorem Endpoint_send_inv (alive : Nat → Bool) (ep : Endpoint) (msg : Message)
    (h : ep.inv) : ((ep.send alive msg).1).inv := by
  by_cases hidx : (ep.registered.findIdx fun w => w.tag == msg.tag)
      < ep.registered.length
  · simp only [Endpoint.send, dif_pos hidx]
    split
    · intro m hm w hw
      exact h m hm w (swapRemove_subset hw)
    · intro m hm w hw
      exact h m hm w (swapRemove_subset hw)
  · simp only [Endpoint.send, dif_neg hidx]
    intro m hm w hw
    rcases List.mem_append.mp hm with hm' | hm'
    · exact h m hm' w hw
    · have hm'' : m = msg := by simpa using hm'
      rw [hm'']
      have hlen : (ep.registered.findIdx fun w => w.tag == msg.tag)
          = ep.registered.length :=
        Nat.le_antisymm (List.findIdx_le_length _) (Nat.not_lt.mp hidx)
      have hall := List.findIdx_eq_length.mp hlen w hw
      simp only [beq_eq_false_iff_ne] at hall
      exact fun he => hall he.symm

theorem Endpoint_recv_inv (ep : Endpoint) (tag wid : Nat)
    (h : ep.inv) : ((ep.recv tag wid).1).inv := by
  by_cases hidx : (ep.msgs.findIdx fun m => tag == m.tag) < ep.msgs.length
  · simp only [Endpoint.recv, dif_pos hidx]
    intro m hm w hw
    exact h m (swapRemove_subset hm) w hw
  · simp only [Endpoint.recv, dif_neg hidx]
    intro m hm w hw
    rcases List.mem_append.mp hw with hw' | hw'
    · exact h m hm w hw'
    · have hw'' : w = ⟨tag, wid⟩ := by simpa using hw'
      subst hw''
      have hlen : (ep.msgs.findIdx fun m => tag == m.tag) = ep.msgs.length :=
        Nat.le_antisymm (List.findIdx_le_length _) (Nat.not_lt.mp hidx)
      have hall := List.findIdx_eq_length.mp hlen m hm
      simp only [beq_eq_false_iff_ne] at hall
      exact fun he => hall he.symm

end madsim

namespace tcp

theorem Mailbox_deliver_inv (alive : Nat → Bool) (mb : Mailbox) (msg : RecvMsg)
    (h : mb.inv) : ((mb.deliver alive msg).1).inv := by
  unfold Mailbox.deliver
  rcases hres : deliverLoop alive msg.tag mb.registered 0 with ⟨reg', acc⟩
  cases acc with
  | some wid =>
    intro m hm w hw
    have hw' : w ∈ mb.registered := by
      have hsub := deliverLoop_subset alive msg.tag mb.registered 0 w
      rw [hres] at hsub
      exact hsub hw
    exact h m hm w hw'
  | none =>
    intro m hm w hw
    have hsub : w ∈ mb.registered := by
      have hsub := deliverLoop_subset alive msg.tag mb.registered 0 w
      rw [hres] at hsub
      exact hsub hw
    rcases List.mem_append.mp hm with hm' | hm'
    · exact h m hm' w hsub
    · have hm'' : m = msg := by simpa using hm'
      rw [hm'']
      have hnot := deliverLoop_none_tags alive msg.tag mb.registered 0
        (reg', none) (fun j hj hjl => absurd hj (by omega)) hres rfl w hw
      exact fun he => hnot he.symm

theorem Mailbox_recv_inv (mb : Mailbox) (tag wid : Nat)
    (h : mb.inv) : ((mb.recv tag wid).1).inv := by
  by_cases hidx : (mb.msgs.findIdx fun m => tag == m.tag) < mb.msgs.length
  · simp only [Mailbox.recv, dif_pos hidx]
    intro m hm w hw
    exact h m (swapRemove_subset hm) w hw
  · simp only [Mailbox.recv, dif_neg hidx]
    intro m hm w hw
    rcases List.mem_append.mp hw with hw' | hw'
    · exact h m hm w hw'
    · have hw'' : w = ⟨tag, wid⟩ := by simpa using hw'
      subst hw''
      have hlen : (mb.msgs.findIdx fun m => tag == m.tag) = mb.msgs.length :=
        Nat.le_antisymm (List.findIdx_le_length _) (Nat.not_lt.mp hidx)
      have hall := List.findIdx_eq_length.mp hlen m hm
      simp only [beq_eq_false_iff_ne] at hall
      exact fun he => hall he.symm

end tcp


namespace madsim

theorem Endpoint_recv_found (ep : Endpoint) (tag wid : Nat) (ep' : Endpoint)
    (m : Message) (h : ep.recv tag wid = (ep', some m)) :
    ∃ hi : (ep.msgs.findIdx fun x => tag == x.tag) < ep.msgs.length,
      m = ep.msgs[ep.msgs.findIdx fun x => tag == x.tag] ∧
      ep' = { ep with
              msgs := swapRemove ep.msgs (ep.msgs.findIdx fun x => tag == x.tag) } := by
  by_cases hidx : (ep.msgs.findIdx fun x => tag == x.tag) < ep.msgs.length
  · simp only [Endpoint.recv, dif_pos hidx, Prod.mk.injEq] at h
    exact ⟨hidx, (Option.some_inj.mp h.2).symm, h.1.symm⟩
  · simp only [Endpoint.recv, dif_neg hidx, Prod.mk.injEq] at h
    exact absurd h.2 (by simp)

theorem Endpoint_send_handed (alive : Nat → Bool) (ep : Endpoint) (msg : Message)
    (ep' : Endpoint) (wid : Nat) (h : ep.send alive msg = (ep', .handed wid)) :
    ∃ hi : (ep.registered.findIdx fun w => w.tag == msg.tag)
        < ep.registered.length,
      wid = (ep.registered[ep.registered.findIdx fun w => w.tag == msg.tag]).wid ∧
      alive wid = true ∧
      ep' = { ep with
              registered := swapRemove ep.registered
                (ep.registered.findIdx fun w => w.tag == msg.tag) } := by
  by_cases hidx : (ep.registered.findIdx fun w => w.tag == msg.tag)
      < ep.registered.length
  · simp only [Endpoint.send, dif_pos hidx] at h
    split at h
    · rename_i halive
      simp only [Prod.mk.injEq, DeliverOutcome.handed.injEq] at h
      refine ⟨hidx, h.2.symm, ?_, h.1.symm⟩
      rw [← h.2]
      exact halive
    · simp only [Prod.mk.injEq] at h
      exact absurd h.2 (by simp)
  · simp only [Endpoint.send, dif_neg hidx, Prod.mk.injEq] at h
    exact absurd h.2 (by simp)

theorem Network_send_preserves (net : Network) (loss : Bool)
    (src dst : SocketAddr) (tag : Nat) (data : List Nat) :
    ((net.send loss src dst tag data).1).endpoints = net.endpoints ∧
    ((net.send loss src dst tag data).1).clogged = net.clogged := by
  unfold Network.send
  split
  · exact ⟨rfl, rfl⟩
  · split
    · exact ⟨rfl, rfl⟩
    · exact ⟨rfl, rfl⟩

theorem Network_send_scheduled (net : Network) (loss : Bool)
    (src dst : SocketAddr) (tag : Nat) (data : List Nat) (net' : Network)
    (m : Message) (d : SocketAddr)
    (h : net.send loss src dst tag data = (net', .scheduled m d)) :
    m = ⟨tag, data, src⟩ ∧ d = dst ∧
    (net.endpoints src).isSome = true ∧ (net.endpoints dst).isSome = true ∧
    net.clogged src = false ∧ net.clogged dst = false ∧ loss = false ∧
    net'.stat.msg_count = net.stat.msg_count + 1 := by
  unfold Network.send at h
  split at h
  · simp [Prod.mk.injEq] at h
  · rename_i hsrc
    split at h
    · simp [Prod.mk.injEq] at h
    · rename_i hdrop
      simp only [Prod.mk.injEq, SendOutcome.scheduled.injEq] at h
      obtain ⟨hnet, hm, hd⟩ := h
      simp only [Bool.or_eq_true, not_or] at hdrop
      obtain ⟨⟨⟨hnd, hncs⟩, hncd⟩, hnl⟩ := hdrop
      refine ⟨hm.symm, hd.symm, ?_, ?_, ?_, ?_, ?_, ?_⟩
      · rw [Option.isSome_iff_ne_none]
        simpa [Option.isNone_iff_eq_none] using hsrc
      · rw [Option.isSome_iff_ne_none]
        simpa [Option.isNone_iff_eq_none] using hnd
      · simpa using hncs
      · simpa using hncd
      · simpa using hnl
      · rw [← hnet]

theorem Network_send_msg_count (net : Network) (loss : Bool)
    (src dst : SocketAddr) (tag : Nat) (data : List Nat)
    (hsrc : (net.endpoints src).isSome) :
    ((net.send loss src dst tag data).1).stat.msg_count
      = net.stat.msg_count
        + (if net.admits ⟨loss, src, dst, tag, data⟩ then 1 else 0) := by
  obtain ⟨es, hs⟩ := Option.isSome_iff_exists.mp hsrc
  cases hdst : net.endpoints dst <;>
    cases loss <;>
      cases hcs : net.clogged src <;>
        cases hcd : net.clogged dst <;>
          simp [Network.send, Network.admits, hs, hdst, hcs, hcd]

theorem Network_sendMany_msg_count (calls : List SendCall) :
    ∀ net : Network, (∀ c ∈ calls, (net.endpoints c.src).isSome) →
      (net.sendMany calls).stat.msg_count
        = net.stat.msg_count + calls.countP net.admits := by
  induction calls with
  | nil =>
    intro net _
    simp [Network.sendMany]
  | cons c cs ih =>
    intro net h
    have hc : (net.endpoints c.src).isSome = true := h c (by simp)
    have hpres := Network_send_preserves net c.loss c.src c.dst c.tag c.data
    simp only [Network.sendMany]
    rw [ih ((net.send c.loss c.src c.dst c.tag c.data).1)
      (by intro c' hc'; rw [hpres.1]; exact h c' (by simp [hc']))]
    rw [Network_send_msg_count net c.loss c.src c.dst c.tag c.data hc]
    have hadm : ((net.send c.loss c.src c.dst c.tag c.data).1).admits
        = net.admits := by
      funext x
      unfold Network.admits
      rw [hpres.1, hpres.2]
    rw [hadm, List.countP_cons]
    have hcc : (⟨c.loss, c.src, c.dst, c.tag, c.data⟩ : SendCall) = c := rfl
    rw [hcc]
    omega

end madsim

/-- C1: what `deliver` does when the first tag-matching waiter's one-shot
receiver has been dropped.  In the simulated network
(`madsim/src/net/network.rs`), `Endpoint::send` removes the first
tag-matching waiter and ignores the one-shot result (`let _ =
sender.send(msg)`): with a single registered waiter for tag 7 whose
receiver is dropped, the delivered message is discarded — it is not
appended to `pending` and a subsequent recv for tag 7 finds nothing, so
the dropped receiver does consume the delivery, contradicting the
claim.  The TCP-transport `Mailbox::deliver` implements the claimed
behaviour: it removes the dead waiter and continues scanning (handing
the message to a later live waiter with the same tag), appends the
message to `pending` when no waiter accepts, and a subsequently issued
recv for the same tag receives that message. -/
theorem deliver_after_dropped_receiver :
    madsim.Endpoint.send (fun _ => false) ⟨[⟨7, 0⟩], []⟩ ⟨7, [1], ⟨10, 1⟩⟩
      = (⟨[], []⟩, .lost) ∧
    (((madsim.Endpoint.send (fun _ => false) ⟨[⟨7, 0⟩], []⟩
        ⟨7, [1], ⟨10, 1⟩⟩).1).recv 7 1).2 = none ∧
    tcp.Mailbox.deliver (fun _ => false) ⟨[⟨7, 0⟩], []⟩ ⟨7, [1], ⟨10, 1⟩⟩
      = (⟨[], [⟨7, [1], ⟨10, 1⟩⟩]⟩, none) ∧
    (((tcp.Mailbox.deliver (fun _ => false) ⟨[⟨7, 0⟩], []⟩
        ⟨7, [1], ⟨10, 1⟩⟩).1).recv 7 1).2 = some ⟨7, [1], ⟨10, 1⟩⟩ ∧
    (tcp.Mailbox.deliver (fun w => w == 1) ⟨[⟨7, 0⟩, ⟨7, 1⟩], []⟩
        ⟨7, [1], ⟨10, 1⟩⟩).2 = some 1 := by
  refine ⟨by decide, by decide, ?_, ?_, ?_⟩
  · simp [tcp.Mailbox.deliver, tcp.deliverLoop, swapRemove]
  · simp [tcp.Mailbox.deliver, tcp.deliverLoop, swapRemove, tcp.Mailbox.recv]
    decide
  · simp [tcp.Mailbox.deliver, tcp.deliverLoop, swapRemove]

/-- C2 (counterexample): same-tag service is not FIFO and pending does
not preserve delivery order, because removal is `swap_remove`.  Three
same-tag messages delivered in order `[1]`, `[2]`, `[3]` sit in
`pending` in that order, but successive recvs return the first and then
the THIRD message (not the second).  Likewise three waiters registered
for tag 1 in order 0, 1, 2 are served 0 then 2 by successive delivers. -/
theorem same_tag_order_counterexample :
    (((madsim.Endpoint.send (fun _ => true)
          ((madsim.Endpoint.send (fun _ => true)
            ((madsim.Endpoint.send (fun _ => true) ⟨[], []⟩
              ⟨1, [1], ⟨10, 1⟩⟩).1) ⟨1, [2], ⟨10, 1⟩⟩).1)
          ⟨1, [3], ⟨10, 1⟩⟩).1).msgs
        = [⟨1, [1], ⟨10, 1⟩⟩, ⟨1, [2], ⟨10, 1⟩⟩, ⟨1, [3], ⟨10, 1⟩⟩]) ∧
    (((madsim.Endpoint.recv ⟨[], [⟨1, [1], ⟨10, 1⟩⟩, ⟨1, [2], ⟨10, 1⟩⟩,
        ⟨1, [3], ⟨10, 1⟩⟩]⟩ 1 0)).2 = some ⟨1, [1], ⟨10, 1⟩⟩) ∧
    ((((madsim.Endpoint.recv ⟨[], [⟨1, [1], ⟨10, 1⟩⟩, ⟨1, [2], ⟨10, 1⟩⟩,
        ⟨1, [3], ⟨10, 1⟩⟩]⟩ 1 0)).1.recv 1 1).2 = some ⟨1, [3], ⟨10, 1⟩⟩) ∧
    ((tcp.Mailbox.deliver (fun _ => true) ⟨[⟨1, 0⟩, ⟨1, 1⟩, ⟨1, 2⟩], []⟩
        ⟨1, [1], ⟨10, 1⟩⟩).2 = some 0) ∧
    ((tcp.Mailbox.deliver (fun _ => true)
        (tcp.Mailbox.deliver (fun _ => true) ⟨[⟨1, 0⟩, ⟨1, 1⟩, ⟨1, 2⟩], []⟩
          ⟨1, [1], ⟨10, 1⟩⟩).1 ⟨1, [2], ⟨10, 1⟩⟩).2 = some 2) := by
  refine ⟨by decide, by decide, by decide, ?_, ?_⟩
  · simp [tcp.Mailbox.deliver, tcp.deliverLoop, swapRemove]
  · simp [tcp.Mailbox.deliver, tcp.deliverLoop, swapRemove]

/-- C2 (amended): `deliver` hands a message to the same-tag waiter
earliest in the CURRENT list order, and `recv` returns the same-tag
pending message earliest in the CURRENT list order; each removal is a
swap-remove that moves the last entry into the vacated slot, so the
current order need not be registration/delivery order once a removal
has occurred (FIFO holds only while fewer than three entries share the
tag). -/
theorem first_match_swap_remove_service :
    (∀ (ep : madsim.Endpoint) (tag wid : Nat) (ep' : madsim.Endpoint)
       (m : madsim.Message), ep.recv tag wid = (ep', some m) →
       ∃ idx, ∃ h : idx < ep.msgs.length,
         m = ep.msgs[idx] ∧ m.tag = tag ∧
         (∀ j, ∀ hj : j < ep.msgs.length, j < idx → ep.msgs[j].tag ≠ tag) ∧
         ep'.msgs = swapRemove ep.msgs idx ∧
         ep'.registered = ep.registered) ∧
    (∀ (alive : Nat → Bool) (ep : madsim.Endpoint) (msg : madsim.Message)
       (ep' : madsim.Endpoint) (wid : Nat),
       ep.send alive msg = (ep', .handed wid) →
       ∃ idx, ∃ h : idx < ep.registered.length,
         ep.registered[idx].wid = wid ∧ ep.registered[idx].tag = msg.tag ∧
         (∀ j, ∀ hj : j < ep.registered.length, j < idx →
            ep.registered[j].tag ≠ msg.tag) ∧
         ep'.registered = swapRemove ep.registered idx ∧
         ep'.msgs = ep.msgs) := by
  constructor
  · intro ep tag wid ep' m h
    obtain ⟨hi, hm, hep⟩ := madsim.Endpoint_recv_found ep tag wid ep' m h
    refine ⟨_, hi, hm, ?_, ?_, ?_, ?_⟩
    · have hp : (fun x => tag == x.tag)
          (ep.msgs.get ⟨ep.msgs.findIdx fun x => tag == x.tag, hi⟩) = true :=
        List.findIdx_getElem (w := hi)
      rw [hm]
      simp only [beq_iff_eq] at hp
      exact hp.symm
    · intro j hj hlt
      have hp := List.not_of_lt_findIdx hlt
      simp only [beq_eq_false_iff_ne] at hp
      exact fun he => hp he.symm
    · rw [hep]
    · rw [hep]
  · intro alive ep msg ep' wid h
    obtain ⟨hi, hwid, halive, hep⟩ := madsim.Endpoint_send_handed alive ep msg ep' wid h
    refine ⟨_, hi, hwid.symm, ?_, ?_, ?_, ?_⟩
    · have hp : (fun w => w.tag == msg.tag)
          (ep.registered.get
            ⟨ep.registered.findIdx fun w => w.tag == msg.tag, hi⟩)
          = true := List.findIdx_getElem (w := hi)
      simpa using hp
    · intro j hj hlt
      have hp := List.not_of_lt_findIdx hlt
      simpa using hp
    · rw [hep]
    · rw [hep]

/-- C2 (amended, witness): the first conjunct applied to a concrete
mailbox holding one message with tag 1. -/
theorem first_match_swap_remove_service_witness :
    (madsim.Endpoint.recv ⟨[], [⟨1, [9], ⟨10, 1⟩⟩]⟩ 1 0
        = (⟨[], []⟩, some ⟨1, [9], ⟨10, 1⟩⟩)) ∧
    ∃ idx, ∃ h : idx
        < (⟨[], [⟨1, [9], ⟨10, 1⟩⟩]⟩ : madsim.Endpoint).msgs.length,
      (⟨1, [9], ⟨10, 1⟩⟩ : madsim.Message)
          = (⟨[], [⟨1, [9], ⟨10, 1⟩⟩]⟩ : madsim.Endpoint).msgs[idx] ∧
      (⟨1, [9], ⟨10, 1⟩⟩ : madsim.Message).tag = 1 ∧
      (∀ j, ∀ hj : j
          < (⟨[], [⟨1, [9], ⟨10, 1⟩⟩]⟩ : madsim.Endpoint).msgs.length,
          j < idx →
          (⟨[], [⟨1, [9], ⟨10, 1⟩⟩]⟩ : madsim.Endpoint).msgs[j].tag ≠ 1) ∧
      (⟨[], []⟩ : madsim.Endpoint).msgs
          = swapRemove (⟨[], [⟨1, [9], ⟨10, 1⟩⟩]⟩ : madsim.Endpoint).msgs idx ∧
      (⟨[], []⟩ : madsim.Endpoint).registered
          = (⟨[], [⟨1, [9], ⟨10, 1⟩⟩]⟩ : madsim.Endpoint).registered :=
  ⟨by decide,
   first_match_swap_remove_service.1 ⟨[], [⟨1, [9], ⟨10, 1⟩⟩]⟩ 1 0
     ⟨[], []⟩ ⟨1, [9], ⟨10, 1⟩⟩ (by decide)⟩

/-- C3: the mailbox invariant — for any given tag, never both a pending
message and a registered waiter — is preserved by every deliver
(`Endpoint::send` / `Mailbox::deliver`) and every recv, in both the
simulated network and the TCP transport. -/
theorem mailbox_invariant_preserved :
    (∀ (alive : Nat → Bool) (ep : madsim.Endpoint) (msg : madsim.Message),
       ep.inv → ((ep.send alive msg).1).inv) ∧
    (∀ (ep : madsim.Endpoint) (tag wid : Nat),
       ep.inv → ((ep.recv tag wid).1).inv) ∧
    (∀ (alive : Nat → Bool) (mb : tcp.Mailbox) (msg : tcp.RecvMsg),
       mb.inv → ((mb.deliver alive msg).1).inv) ∧
    (∀ (mb : tcp.Mailbox) (tag wid : Nat),
       mb.inv → ((mb.recv tag wid).1).inv) :=
  ⟨madsim.Endpoint_send_inv, madsim.Endpoint_recv_inv,
   tcp.Mailbox_deliver_inv, tcp.Mailbox_recv_inv⟩

/-- C3 (witness): preservation applied to a concrete endpoint holding a
pending message with tag 1 and a waiter for tag 2. -/
theorem mailbox_invariant_preserved_witness :
    madsim.Endpoint.inv ⟨[⟨2, 0⟩], [⟨1, [9], ⟨10, 1⟩⟩]⟩ ∧
    madsim.Endpoint.inv ((madsim.Endpoint.send (fun _ => true)
      ⟨[⟨2, 0⟩], [⟨1, [9], ⟨10, 1⟩⟩]⟩ ⟨2, [7], ⟨10, 2⟩⟩).1) ∧
    madsim.Endpoint.inv ((madsim.Endpoint.recv
      ⟨[⟨2, 0⟩], [⟨1, [9], ⟨10, 1⟩⟩]⟩ 3 1).1) ∧
    tcp.Mailbox.inv ⟨[⟨2, 0⟩], [⟨1, [9], ⟨10, 1⟩⟩]⟩ ∧
    tcp.Mailbox.inv ((tcp.Mailbox.deliver (fun _ => false)
      ⟨[⟨2, 0⟩], [⟨1, [9], ⟨10, 1⟩⟩]⟩ ⟨3, [7], ⟨10, 2⟩⟩).1) ∧
    tcp.Mailbox.inv ((tcp.Mailbox.recv
      ⟨[⟨2, 0⟩], [⟨1, [9], ⟨10, 1⟩⟩]⟩ 3 1).1) :=
  ⟨by decide,
   mailbox_invariant_preserved.1 (fun _ => true) _ _ (by decide),
   mailbox_invariant_preserved.2.1 _ 3 1 (by decide),
   by decide,
   mailbox_invariant_preserved.2.2.1 (fun _ => false) _ _ (by decide),
   mailbox_invariant_preserved.2.2.2 _ 3 1 (by decide)⟩

/-- C4: a message scheduled by `Network::send` carries the requested tag,
the payload bytes, and `from` equal to the source address of the send;
a recv that completes by claiming a pending message returns a message
whose tag equals the requested tag; and a message handed to a waiter by
deliver goes to a waiter registered for exactly that tag. -/
theorem recv_tag_and_from_correct :
    (∀ (net : madsim.Network) (loss : Bool) (src dst : SocketAddr)
       (tag : Nat) (data : List Nat) (net' : madsim.Network)
       (m : madsim.Message) (d : SocketAddr),
       net.send loss src dst tag data = (net', .scheduled m d) →
       m.tag = tag ∧ m.«from» = src ∧ m.data = data ∧ d = dst) ∧
    (∀ (ep : madsim.Endpoint) (tag wid : Nat) (ep' : madsim.Endpoint)
       (m : madsim.Message), ep.recv tag wid = (ep', some m) → m.tag = tag) ∧
    (∀ (alive : Nat → Bool) (ep : madsim.Endpoint) (msg : madsim.Message)
       (ep' : madsim.Endpoint) (wid : Nat),
       ep.send alive msg = (ep', .handed wid) →
       ∃ w ∈ ep.registered, w.wid = wid ∧ w.tag = msg.tag) := by
  refine ⟨?_, ?_, ?_⟩
  · intro net loss src dst tag data net' m d h
    obtain ⟨hm, hd, _⟩ :=
      madsim.Network_send_scheduled net loss src dst tag data net' m d h
    subst hm
    exact ⟨rfl, rfl, rfl, hd⟩
  · intro ep tag wid ep' m h
    obtain ⟨hi, hm, _⟩ := madsim.Endpoint_recv_found ep tag wid ep' m h
    have hp : (fun x => tag == x.tag)
        (ep.msgs.get ⟨ep.msgs.findIdx fun x => tag == x.tag, hi⟩) = true :=
      List.findIdx_getElem (w := hi)
    rw [hm]
    simp only [beq_iff_eq] at hp
    exact hp.symm
  · intro alive ep msg ep' wid h
    obtain ⟨hi, hwid, _, _⟩ := madsim.Endpoint_send_handed alive ep msg ep' wid h
    refine ⟨ep.registered.get
      ⟨ep.registered.findIdx fun w => w.tag == msg.tag, hi⟩,
      List.getElem_mem hi, hwid.symm, ?_⟩
    have hp : (fun w => w.tag == msg.tag)
        (ep.registered.get
          ⟨ep.registered.findIdx fun w => w.tag == msg.tag, hi⟩)
        = true := List.findIdx_getElem (w := hi)
    simpa using hp

/-- C4 (witness): the three conjuncts applied to a concrete send, a
concrete recv of a pending message, and a concrete deliver to a
registered waiter. -/
theorem recv_tag_and_from_correct_witness :
    (madsim.Network.send
        ⟨fun a => if a.ip = 10 then some ⟨[], []⟩ else none,
         fun _ => false, ⟨0⟩⟩ false ⟨10, 1⟩ ⟨10, 2⟩ 5 [9]
      = (⟨fun a => if a.ip = 10 then some ⟨[], []⟩ else none,
          fun _ => false, ⟨1⟩⟩,
         .scheduled ⟨5, [9], ⟨10, 1⟩⟩ ⟨10, 2⟩)) ∧
    ((⟨5, [9], ⟨10, 1⟩⟩ : madsim.Message).tag = 5 ∧
     (⟨5, [9], ⟨10, 1⟩⟩ : madsim.Message).«from» = ⟨10, 1⟩ ∧
     (⟨5, [9], ⟨10, 1⟩⟩ : madsim.Message).data = [9] ∧
     (⟨10, 2⟩ : SocketAddr) = ⟨10, 2⟩) ∧
    (madsim.Endpoint.recv ⟨[], [⟨5, [9], ⟨10, 1⟩⟩]⟩ 5 0
      = (⟨[], []⟩, some ⟨5, [9], ⟨10, 1⟩⟩)) ∧
    ((⟨5, [9], ⟨10, 1⟩⟩ : madsim.Message).tag = 5) ∧
    (madsim.Endpoint.send (fun _ => true) ⟨[⟨5, 3⟩], []⟩ ⟨5, [9], ⟨10, 1⟩⟩
      = (⟨[], []⟩, .handed 3)) ∧
    (∃ w ∈ (⟨[⟨5, 3⟩], []⟩ : madsim.Endpoint).registered,
       w.wid = 3 ∧ w.tag = (⟨5, [9], ⟨10, 1⟩⟩ : madsim.Message).tag) :=
  ⟨rfl,
   recv_tag_and_from_correct.1
     ⟨fun a => if a.ip = 10 then some ⟨[], []⟩ else none, fun _ => false, ⟨0⟩⟩
     false ⟨10, 1⟩ ⟨10, 2⟩ 5 [9]
     ⟨fun a => if a.ip = 10 then some ⟨[], []⟩ else none, fun _ => false, ⟨1⟩⟩
     ⟨5, [9], ⟨10, 1⟩⟩ ⟨10, 2⟩ rfl,
   by decide,
   recv_tag_and_from_correct.2.1 ⟨[], [⟨5, [9], ⟨10, 1⟩⟩]⟩ 5 0 ⟨[], []⟩
     ⟨5, [9], ⟨10, 1⟩⟩ (by decide),
   by decide,
   recv_tag_and_from_correct.2.2 (fun _ => true) ⟨[⟨5, 3⟩], []⟩
     ⟨5, [9], ⟨10, 1⟩⟩ ⟨[], []⟩ 3 (by decide)⟩

/-- C5: `stat.msg_count` counts exactly the sends that pass fault
admission: each send (from a bound source) increments it by one iff the
destination is bound, neither endpoint is clogged and the packet-loss
draw did not fire (equivalently, iff the send was not dropped), and over
any sequence of sends it grows by the number of admitted calls. -/
theorem msg_count_counts_admitted_sends :
    (∀ (net : madsim.Network) (loss : Bool) (src dst : SocketAddr)
       (tag : Nat) (data : List Nat), (net.endpoints src).isSome →
       ((net.send loss src dst tag data).1).stat.msg_count
         = net.stat.msg_count
           + (if net.admits ⟨loss, src, dst, tag, data⟩ then 1 else 0)) ∧
    (∀ (net : madsim.Network) (loss : Bool) (src dst : SocketAddr)
       (tag : Nat) (data : List Nat), (net.endpoints src).isSome →
       ((net.send loss src dst tag data).2 = .dropped
         ↔ net.admits ⟨loss, src, dst, tag, data⟩ = false)) ∧
    (∀ (calls : List madsim.SendCall) (net : madsim.Network),
       (∀ c ∈ calls, (net.endpoints c.src).isSome) →
       (net.sendMany calls).stat.msg_count
         = net.stat.msg_count + calls.countP net.admits) := by
  refine ⟨madsim.Network_send_msg_count, ?_, madsim.Network_sendMany_msg_count⟩
  intro net loss src dst tag data hsrc
  obtain ⟨es, hs⟩ := Option.isSome_iff_exists.mp hsrc
  cases hdst : net.endpoints dst <;>
    cases loss <;>
      cases hcs : net.clogged src <;>
        cases hcd : net.clogged dst <;>
          simp [madsim.Network.send, madsim.Network.admits, hs, hdst, hcs, hcd]

/-- C5 (witness): one admitted and one lost send from a bound source,
and a two-call sequence of which exactly one is admitted. -/
theorem msg_count_counts_admitted_sends_witness :
    (((madsim.Network.send
        ⟨fun a => if a.ip = 10 then some ⟨[], []⟩ else none,
         fun _ => false, ⟨0⟩⟩ false ⟨10, 1⟩ ⟨10, 2⟩ 5 [9]).1).stat.msg_count
      = (0 : Nat)
        + (if madsim.Network.admits
            ⟨fun a => if a.ip = 10 then some ⟨[], []⟩ else none,
             fun _ => false, ⟨0⟩⟩ ⟨false, ⟨10, 1⟩, ⟨10, 2⟩, 5, [9]⟩
           then 1 else 0)) ∧
    (((madsim.Network.send
        ⟨fun a => if a.ip = 10 then some ⟨[], []⟩ else none,
         fun _ => false, ⟨0⟩⟩ true ⟨10, 1⟩ ⟨10, 2⟩ 5 [9]).2 = .dropped
      ↔ madsim.Network.admits
          ⟨fun a => if a.ip = 10 then some ⟨[], []⟩ else none,
           fun _ => false, ⟨0⟩⟩ ⟨true, ⟨10, 1⟩, ⟨10, 2⟩, 5, [9]⟩ = false)) ∧
    ((madsim.Network.sendMany
        ⟨fun a => if a.ip = 10 then some ⟨[], []⟩ else none,
         fun _ => false, ⟨0⟩⟩
        [⟨false, ⟨10, 1⟩, ⟨10, 2⟩, 5, [9]⟩,
         ⟨true, ⟨10, 1⟩, ⟨10, 2⟩, 6, [8]⟩]).stat.msg_count
      = (0 : Nat)
        + List.countP
            (madsim.Network.admits
              ⟨fun a => if a.ip = 10 then some ⟨[], []⟩ else none,
               fun _ => false, ⟨0⟩⟩)
            [⟨false, ⟨10, 1⟩, ⟨10, 2⟩, 5, [9]⟩,
             ⟨true, ⟨10, 1⟩, ⟨10, 2⟩, 6, [8]⟩]) :=
  ⟨msg_count_counts_admitted_sends.1 _ false ⟨10, 1⟩ ⟨10, 2⟩ 5 [9] (by decide),
   msg_count_counts_admitted_sends.2.1 _ true ⟨10, 1⟩ ⟨10, 2⟩ 5 [9] (by decide),
   msg_count_counts_admitted_sends.2.2 _ _ (by decide)⟩

/-- C6: once the source address is bound, `Network::send` never errors —
its outcome is either a silently dropped message or a scheduled
delivery; whenever the destination is unbound, either address is
clogged, or the loss draw fires, the state is returned unchanged with
outcome `dropped` and no delivery is scheduled; sending from an unbound
source address is the panic case. -/
theorem send_never_errors_drops_silent :
    (∀ (net : madsim.Network) (loss : Bool) (src dst : SocketAddr)
       (tag : Nat) (data : List Nat), (net.endpoints src).isSome →
       (net.send loss src dst tag data).2 = .dropped ∨
       ∃ m d, (net.send loss src dst tag data).2 = .scheduled m d) ∧
    (∀ (net : madsim.Network) (loss : Bool) (src dst : SocketAddr)
       (tag : Nat) (data : List Nat), (net.endpoints src).isSome →
       ((net.endpoints dst).isNone || net.clogged src || net.clogged dst
         || loss) = true →
       net.send loss src dst tag data = (net, .dropped)) ∧
    (∀ (net : madsim.Network) (loss : Bool) (src dst : SocketAddr)
       (tag : Nat) (data : List Nat), net.endpoints src = none →
       net.send loss src dst tag data = (net, .panicked)) := by
  refine ⟨?_, ?_, ?_⟩
  · intro net loss src dst tag data hsrc
    obtain ⟨es, hs⟩ := Option.isSome_iff_exists.mp hsrc
    by_cases hdrop : ((net.endpoints dst).isNone || net.clogged src
        || net.clogged dst || loss) = true
    · left
      simp [madsim.Network.send, hs, hdrop]
    · right
      refine ⟨⟨tag, data, src⟩, dst, ?_⟩
      simp [madsim.Network.send, hs, hdrop]
  · intro net loss src dst tag data hsrc hdrop
    obtain ⟨es, hs⟩ := Option.isSome_iff_exists.mp hsrc
    simp [madsim.Network.send, hs, hdrop]
  · intro net loss src dst tag data hsrc
    simp [madsim.Network.send, hsrc]

/-- C6 (witness): a send dropped because the destination is clogged
(state returned unchanged), and a panicking send from an unbound
source. -/
theorem send_never_errors_drops_silent_witness :
    ((madsim.Network.send
        ⟨fun a => if a.ip = 10 then some ⟨[], []⟩ else none,
         fun a => a.port == 2, ⟨0⟩⟩ false ⟨10, 1⟩ ⟨10, 2⟩ 5 [9]).2
          = .dropped ∨
      ∃ m d, (madsim.Network.send
        ⟨fun a => if a.ip = 10 then some ⟨[], []⟩ else none,
         fun a => a.port == 2, ⟨0⟩⟩ false ⟨10, 1⟩ ⟨10, 2⟩ 5 [9]).2
          = .scheduled m d) ∧
    (madsim.Network.send
        ⟨fun a => if a.ip = 10 then some ⟨[], []⟩ else none,
         fun a => a.port == 2, ⟨0⟩⟩ false ⟨10, 1⟩ ⟨10, 2⟩ 5 [9]
      = (⟨fun a => if a.ip = 10 then some ⟨[], []⟩ else none,
          fun a => a.port == 2, ⟨0⟩⟩, .dropped)) ∧
    (madsim.Network.send
        ⟨fun a => if a.ip = 10 then some ⟨[], []⟩ else none,
         fun a => a.port == 2, ⟨0⟩⟩ false ⟨99, 1⟩ ⟨10, 2⟩ 5 [9]
      = (⟨fun a => if a.ip = 10 then some ⟨[], []⟩ else none,
          fun a => a.port == 2, ⟨0⟩⟩, .panicked)) :=
  ⟨send_never_errors_drops_silent.1 _ false ⟨10, 1⟩ ⟨10, 2⟩ 5 [9] (by decide),
   send_never_errors_drops_silent.2.1 _ false ⟨10, 1⟩ ⟨10, 2⟩ 5 [9]
     (by decide) (by decide),
   send_never_errors_drops_silent.2.2 _ false ⟨99, 1⟩ ⟨10, 2⟩ 5 [9] (by decide)⟩

/-- C7: round-trip — a message scheduled by `send_to(dst, T, B)` carries
data `B` and the sender's address, and the `recv_from` copy step
returns `len = min(buf.len, B.len)` and the origin `src`, fills the
buffer with `B[..len]` (silently truncating), and yields exactly `B`
whenever the receive buffer is at least as large as `B`. -/
theorem send_recv_roundtrip_truncation :
    ∀ (net : madsim.Network) (loss : Bool) (src dst : SocketAddr) (T : Nat)
      (B buf : List Nat) (net' : madsim.Network) (m : madsim.Message)
      (d : SocketAddr),
      net.send loss src dst T B = (net', .scheduled m d) →
      (msim.recv_from buf m.data m.«from»).1.1 = min buf.length B.length ∧
      (msim.recv_from buf m.data m.«from»).1.2 = src ∧
      ((msim.recv_from buf m.data m.«from»).2).take (min buf.length B.length)
        = B.take (min buf.length B.length) ∧
      (B.length ≤ buf.length →
        ((msim.recv_from buf m.data m.«from»).2).take
            (min buf.length B.length) = B) := by
  intro net loss src dst T B buf net' m d h
  obtain ⟨hm, _⟩ := madsim.Network_send_scheduled net loss src dst T B net' m d h
  subst hm
  refine ⟨rfl, rfl, ?_, ?_⟩
  · simp only [msim.recv_from]
    exact List.take_left' (by rw [List.length_take]; omega)
  · intro hle
    have hmin : min buf.length B.length = B.length := by omega
    simp only [msim.recv_from]
    rw [hmin, List.take_length]
    exact List.take_left B (buf.drop B.length)

/-- C7 (witness): round-trip of a 3-byte payload into a 2-byte buffer
(truncation) through a concrete admitted send. -/
theorem send_recv_roundtrip_truncation_witness :
    (madsim.Network.send
        ⟨fun a => if a.ip = 10 then some ⟨[], []⟩ else none,
         fun _ => false, ⟨0⟩⟩ false ⟨10, 1⟩ ⟨10, 2⟩ 5 [1, 2, 3]
      = (⟨fun a => if a.ip = 10 then some ⟨[], []⟩ else none,
          fun _ => false, ⟨1⟩⟩,
         .scheduled ⟨5, [1, 2, 3], ⟨10, 1⟩⟩ ⟨10, 2⟩)) ∧
    ((msim.recv_from [0, 0] (⟨5, [1, 2, 3], ⟨10, 1⟩⟩ : madsim.Message).data
        (⟨5, [1, 2, 3], ⟨10, 1⟩⟩ : madsim.Message).«from»).1.1
      = min (List.length [0, 0]) (List.length [1, 2, 3]) ∧
     (msim.recv_from [0, 0] (⟨5, [1, 2, 3], ⟨10, 1⟩⟩ : madsim.Message).data
        (⟨5, [1, 2, 3], ⟨10, 1⟩⟩ : madsim.Message).«from»).1.2 = ⟨10, 1⟩ ∧
     ((msim.recv_from [0, 0] (⟨5, [1, 2, 3], ⟨10, 1⟩⟩ : madsim.Message).data
        (⟨5, [1, 2, 3], ⟨10, 1⟩⟩ : madsim.Message).«from»).2).take
          (min (List.length [0, 0]) (List.length [1, 2, 3]))
       = List.take (min (List.length [0, 0]) (List.length [1, 2, 3])) [1, 2, 3] ∧
     (List.length [1, 2, 3] ≤ List.length [0, 0] →
       ((msim.recv_from [0, 0] (⟨5, [1, 2, 3], ⟨10, 1⟩⟩ : madsim.Message).data
          (⟨5, [1, 2, 3], ⟨10, 1⟩⟩ : madsim.Message).«from»).2).take
            (min (List.length [0, 0]) (List.length [1, 2, 3])) = [1, 2, 3])) :=
  ⟨rfl,
   send_recv_roundtrip_truncation
     ⟨fun a => if a.ip = 10 then some ⟨[], []⟩ else none, fun _ => false, ⟨0⟩⟩
     false ⟨10, 1⟩ ⟨10, 2⟩ 5 [1, 2, 3] [0, 0]
     ⟨fun a => if a.ip = 10 then some ⟨[], []⟩ else none, fun _ => false, ⟨1⟩⟩
     ⟨5, [1, 2, 3], ⟨10, 1⟩⟩ ⟨10, 2⟩ rfl⟩

/-- C8: on the msim `Endpoint` facade, `peer_addr`, `send` and `recv`
fail with `NotConnected` when no peer is stored, and `udp_tag` fails
with `NotConnected` iff the local port is 0, otherwise returning the
port as a `u64` tag. -/
theorem facade_not_connected_errors :
    (∀ ep : msim.Endpoint, ep.peer = none →
       ep.peer_addr = .error .NotConnected ∧
       (∀ tag buf, ep.send tag buf = .error .NotConnected) ∧
       (∀ r, ep.recv r = some (.error .NotConnected))) ∧
    (∀ ep : msim.Endpoint,
       (ep.udp_tag = .error .NotConnected ↔ ep.addr.port = 0) ∧
       (ep.addr.port ≠ 0 → ep.udp_tag = .ok ep.addr.port)) := by
  constructor
  · intro ep h
    refine ⟨?_, ?_, ?_⟩
    · simp [msim.Endpoint.peer_addr, h]
    · intro tag buf
      simp [msim.Endpoint.send, msim.Endpoint.peer_addr, h]
    · intro r
      simp [msim.Endpoint.recv, msim.Endpoint.peer_addr, h]
  · intro ep
    constructor
    · by_cases hp : ep.addr.port = 0 <;> simp [msim.Endpoint.udp_tag, hp]
    · intro hp
      simp [msim.Endpoint.udp_tag, hp]

/-- C8 (witness): a never-connected endpoint on port 7, and an endpoint
on port 0. -/
theorem facade_not_connected_errors_witness :
    ((msim.Endpoint.peer_addr ⟨⟨10, 7⟩, none⟩ = .error .NotConnected) ∧
     (∀ tag buf, msim.Endpoint.send ⟨⟨10, 7⟩, none⟩ tag buf
        = .error .NotConnected) ∧
     (∀ r, msim.Endpoint.recv ⟨⟨10, 7⟩, none⟩ r
        = some (.error .NotConnected))) ∧
    ((msim.Endpoint.udp_tag ⟨⟨10, 0⟩, none⟩ = .error .NotConnected
        ↔ (⟨⟨10, 0⟩, none⟩ : msim.Endpoint).addr.port = 0) ∧
     ((⟨⟨10, 7⟩, none⟩ : msim.Endpoint).addr.port ≠ 0 →
        msim.Endpoint.udp_tag ⟨⟨10, 7⟩, none⟩
          = .ok (⟨⟨10, 7⟩, none⟩ : msim.Endpoint).addr.port)) :=
  ⟨facade_not_connected_errors.1 ⟨⟨10, 7⟩, none⟩ rfl,
   ⟨(facade_not_connected_errors.2 ⟨⟨10, 0⟩, none⟩).1,
    (facade_not_connected_errors.2 ⟨⟨10, 7⟩, none⟩).2⟩⟩

/-- C9: `Network::insert` on an already-registered address returns
without replacing the endpoint: the network is unchanged, so the
existing mailbox keeps its pending messages and registered waiters. -/
theorem insert_idempotent :
    ∀ (net : madsim.Network) (target : SocketAddr) (ep : madsim.Endpoint),
      net.endpoints target = some ep →
      net.insert target = net ∧
      (net.insert target).endpoints target = some ep := by
  intro net target ep h
  have hs : (net.endpoints target).isSome = true := by simp [h]
  constructor
  · simp [madsim.Network.insert, hs]
  · simp [madsim.Network.insert, hs, h]

/-- C9 (witness): inserting over an endpoint that holds a pending
message and a waiter leaves both in place. -/
theorem insert_idempotent_witness :
    ((madsim.Network.insert
        ⟨fun a => if a = ⟨10, 1⟩
            then some ⟨[⟨2, 0⟩], [⟨1, [9], ⟨10, 1⟩⟩]⟩ else none,
         fun _ => false, ⟨0⟩⟩ ⟨10, 1⟩)
      = ⟨fun a => if a = ⟨10, 1⟩
            then some ⟨[⟨2, 0⟩], [⟨1, [9], ⟨10, 1⟩⟩]⟩ else none,
         fun _ => false, ⟨0⟩⟩) ∧
    (madsim.Network.insert
        ⟨fun a => if a = ⟨10, 1⟩
            then some ⟨[⟨2, 0⟩], [⟨1, [9], ⟨10, 1⟩⟩]⟩ else none,
         fun _ => false, ⟨0⟩⟩ ⟨10, 1⟩).endpoints ⟨10, 1⟩
      = some ⟨[⟨2, 0⟩], [⟨1, [9], ⟨10, 1⟩⟩]⟩ :=
  insert_idempotent
    ⟨fun a => if a = ⟨10, 1⟩
        then some ⟨[⟨2, 0⟩], [⟨1, [9], ⟨10, 1⟩⟩]⟩ else none,
     fun _ => false, ⟨0⟩⟩ ⟨10, 1⟩ ⟨[⟨2, 0⟩], [⟨1, [9], ⟨10, 1⟩⟩]⟩ (by decide)

/-- C10: `Network::recv` on an unregistered address panics (models as
`none`), `clog`/`unclog` assert registration, while `remove` is total
and clears the clogged bit, so a removed-then-reinserted address starts
unclogged with a fresh empty mailbox. -/
theorem unbound_recv_clog_panic_remove_total :
    (∀ (net : madsim.Network) (dst : SocketAddr) (tag wid : Nat),
       net.endpoints dst = none → net.recv dst tag wid = none) ∧
    (∀ (net : madsim.Network) (t : SocketAddr), net.endpoints t = none →
       net.clog t = none ∧ net.unclog t = none) ∧
    (∀ (net : madsim.Network) (t : SocketAddr),
       ((net.remove t).insert t).endpoints t = some ⟨[], []⟩ ∧
       ((net.remove t).insert t).clogged t = false) := by
  refine ⟨?_, ?_, ?_⟩
  · intro net dst tag wid h
    simp [madsim.Network.recv, h]
  · intro net t h
    constructor <;> simp [madsim.Network.clog, madsim.Network.unclog, h]
  · intro net t
    constructor <;> simp [madsim.Network.insert, madsim.Network.remove]

/-- C10 (witness): recv, clog and unclog on an unregistered address, and
remove-then-insert of a clogged registered address. -/
theorem unbound_recv_clog_panic_remove_total_witness :
    (madsim.Network.recv
        ⟨fun _ => none, fun _ => true, ⟨0⟩⟩ ⟨10, 1⟩ 5 0 = none) ∧
    (madsim.Network.clog ⟨fun _ => none, fun _ => true, ⟨0⟩⟩ ⟨10, 1⟩ = none ∧
     madsim.Network.unclog ⟨fun _ => none, fun _ => true, ⟨0⟩⟩ ⟨10, 1⟩
       = none) ∧
    (((madsim.Network.remove
          ⟨fun _ => some ⟨[], [⟨1, [9], ⟨10, 1⟩⟩]⟩, fun _ => true, ⟨0⟩⟩
          ⟨10, 1⟩).insert ⟨10, 1⟩).endpoints ⟨10, 1⟩ = some ⟨[], []⟩ ∧
     ((madsim.Network.remove
          ⟨fun _ => some ⟨[], [⟨1, [9], ⟨10, 1⟩⟩]⟩, fun _ => true, ⟨0⟩⟩
          ⟨10, 1⟩).insert ⟨10, 1⟩).clogged ⟨10, 1⟩ = false) :=
  ⟨unbound_recv_clog_panic_remove_total.1 _ ⟨10, 1⟩ 5 0 rfl,
   unbound_recv_clog_panic_remove_total.2.1 _ ⟨10, 1⟩ rfl,
   unbound_recv_clog_panic_remove_total.2.2
     ⟨fun _ => some ⟨[], [⟨1, [9], ⟨10, 1⟩⟩]⟩, fun _ => true, ⟨0⟩⟩ ⟨10, 1⟩⟩
